import Mathlib

/-!
Verification of the reconciliation logic of the `nhl-data-pull` scripts.

The development shallowly embeds the database-facing functions of
`src/nhl_data_pull.py` and `src/juniors_data_pull.py`:

* the SQL helpers `sql_insert`, `sql_update`, `sql_select` become state
  transformers over a pure table value, with an explicit `fails` flag for
  the `psycopg2.DatabaseError` branch (rollback = the original state is
  returned together with status `1`);
* the per-record bodies of `_teams`, `_players` (its `team_players`
  reconciliation), `_skaterStats_yearByYear`, `_goalieStats_yearByYear`,
  `_team_players_check` and `_sequence_check` become pure functions over
  table lists;
* `request_data` of both scripts becomes a function of the outcome of each
  HTTP attempt.

Tables are lists of rows (insertion order); `SELECT ... fetchone` is
`List.find?`, `UPDATE ... WHERE` is a `List.map` that rewrites matching
rows, `INSERT` appends.
-/

set_option autoImplicit false

/-- Outcome of one `requests.get` attempt inside `request_data`: a response
with its HTTP status code and JSON payload, a `requests.exceptions.Timeout`,
or another `requests.exceptions.RequestException`. -/
inductive Attempt where
  | response (status : Nat) (payload : String)
  | timeout
  | reqError
deriving DecidableEq

/-- How a call to `request_data` ends: a Python `return` (with `none`
standing for Python's implicit `None`), a `sys.exit(code)`, or an unhandled
exception that crashes the interpreter. -/
inductive ReqOutcome where
  | returned (payload : Option String)
  | exited (code : Nat)
  | crashed
deriving DecidableEq

/-- True exactly when the outcome is a `sys.exit`. -/
def ReqOutcome.isExit : ReqOutcome → Bool
  | .exited _ => true
  | _ => false

namespace NHL

/-- One iteration of the `for _ in range(3)` loop of
`nhl_data_pull.request_data`: `some r` means the iteration leaves the loop
with outcome `r`, `none` means the loop continues (a non-200 response falls
through with no `else` branch; a timeout hits `continue`). -/
def requestTry (a : Attempt) : Option ReqOutcome :=
  match a with
  | .response s p => if s == 200 then some (.returned (some p)) else none
  | .timeout => none
  | .reqError => some (.exited 1)

/-- `nhl_data_pull.request_data`, as a function of the outcome of each
attempt: the three-iteration loop unrolled; falling off the end of the loop
is Python's implicit `return None`. -/
def request_data (attempts : Nat → Attempt) : ReqOutcome :=
  match requestTry (attempts 0) with
  | some r => r
  | none =>
    match requestTry (attempts 1) with
    | some r => r
    | none =>
      match requestTry (attempts 2) with
      | some r => r
      | none => ReqOutcome.returned none

/-- Result of `sql_select`: the `fetchone` value on success (`found` a row /
`nofind` for Python `None`), or the literal integer `1` that the function
returns after a `DatabaseError`. -/
inductive SelectRes (α : Type) where
  | found : α → SelectRes α
  | nofind : SelectRes α
  | errOne : SelectRes α
deriving DecidableEq

/-- Python truthiness of the value returned by `sql_select` as used in
`if record_check:`-style call sites: a row tuple is truthy, `None` is falsy,
and the integer `1` returned on error is truthy. -/
def SelectRes.truthy {α : Type} : SelectRes α → Bool
  | .found _ => true
  | .nofind => false
  | .errOne => true

/-- `nhl_data_pull.sql_select` with `fetchall=False`: run the query `q`
against the state; on a `DatabaseError` (the `fails` flag) roll back and
return the integer `1`. -/
def sql_select {ρ α : Type} (q : ρ → Option α) (fails : Bool) (db : ρ) :
    SelectRes α :=
  if fails then .errOne else
    match q db with
    | some r => .found r
    | none => .nofind

/-- `nhl_data_pull.sql_insert`: execute the statement's effect `apply` and
commit (status `0`), or on a `DatabaseError` roll back — the state is
returned unchanged — and return status `1` instead of raising. -/
def sql_insert {ρ : Type} (apply : ρ → ρ) (fails : Bool) (db : ρ) :
    ρ × Nat :=
  if fails then (db, 1) else (apply db, 0)

/-- `nhl_data_pull.sql_update`: same shape as `sql_insert`. -/
def sql_update {ρ : Type} (apply : ρ → ρ) (fails : Bool) (db : ρ) :
    ρ × Nat :=
  if fails then (db, 1) else (apply db, 0)

/-- Fields `_teams` extracts from one element of the `teams` JSON list. -/
structure TeamData where
  team_id : Int
  team_name : String
  abbreviation : String
  conference_id : Int
  division_id : Int
  franchise_id : Int
  active : Bool
deriving DecidableEq

/-- Row of the `teams` table. -/
structure TeamRow where
  id : Int
  name : String
  abbreviation : String
  conf_id : Int
  division_id : Int
  franchise_id : Int
  active : Bool
deriving DecidableEq

/-- Row written by the INSERT branch of `_teams`: all seven columns. -/
def mkTeamRow (d : TeamData) : TeamRow :=
  ⟨d.team_id, d.team_name, d.abbreviation, d.conference_id, d.division_id,
    d.franchise_id, d.active⟩

/-- Effect of the UPDATE branch of `_teams` on one matched row: it sets
`id`, `name`, `abbreviation`, `conf_id` and `division_id` only; the SET list
names neither `franchise_id` nor `active`. -/
def updateTeamRow (d : TeamData) (r : TeamRow) : TeamRow :=
  ⟨d.team_id, d.team_name, d.abbreviation, d.conference_id, d.division_id,
    r.franchise_id, r.active⟩

/-- Which SQL write statement a code path executed. -/
inductive SqlWrite where
  | insert
  | update
deriving DecidableEq

/-- Result of one per-record step: the resulting table, the write
statements the step executed, and the status the step's final
`sql_insert`/`sql_update` returned. -/
structure StepOut (ρ : Type) where
  db : ρ
  writes : List SqlWrite
  status : Nat
deriving DecidableEq

/-- Body of the per-team loop of `_teams` for one extracted record `d`:
`SELECT * FROM teams WHERE id = {team_id}` (fetchone), then
`if record_check:` UPDATE else INSERT. `sf` makes the SELECT fail with a
`DatabaseError`, `wf` makes the write fail. -/
def teamsStep (sf wf : Bool) (db : List TeamRow) (d : TeamData) :
    StepOut (List TeamRow) :=
  let record_check :=
    sql_select (fun t => t.find? (fun r => r.id == d.team_id)) sf db
  if record_check.truthy then
    let u := sql_update
      (fun t => t.map (fun r =>
        if r.id == d.team_id then updateTeamRow d r else r)) wf db
    ⟨u.1, [SqlWrite.update], u.2⟩
  else
    let ins := sql_insert (fun t => t ++ [mkTeamRow d]) wf db
    ⟨ins.1, [SqlWrite.insert], ins.2⟩

/-- The per-team loop of `_teams` over a batch of extracted records, each
paired with the flag saying whether its write statement fails. The loop
checks the returned status only to decide what to log, so it continues with
the next record either way. -/
def teamsBatch : List TeamRow → List (TeamData × Bool) → List TeamRow
  | db, [] => db
  | db, (d, wfail) :: rest => teamsBatch (teamsStep false wfail db d).db rest

/-- Number of rows of the `teams` table whose `id` equals `i`. -/
def countKey (db : List TeamRow) (i : Int) : Nat :=
  (db.filter (fun r => r.id == i)).length

end NHL

namespace NHL

/-- Row of the `team_players` bridge table. -/
structure TPRow where
  player_id : Int
  team_id : Int
  season : String
  active : Bool
  sequence : Int
deriving DecidableEq

/-- The WHERE predicate used by every natural-key lookup on `team_players`:
`player_id = .. AND team_id = .. AND season = .. AND sequence = ..`. -/
def tpKeyMatch (player team : Int) (season : String) (seq : Int)
    (r : TPRow) : Bool :=
  r.player_id == player && r.team_id == team && r.season == season &&
    r.sequence == seq

/-- The `team_players` reconciliation inside the per-player loop of
`_players`: SELECT by the four-column natural key (fetchone), then
`if team_players_check:` UPDATE (all five columns, same key predicate) else
INSERT. -/
def playersTeamPlayersStep (sf wf : Bool) (db : List TPRow)
    (player team : Int) (season : String) (active : Bool) (seq : Int) :
    StepOut (List TPRow) :=
  let team_players_check :=
    sql_select (fun t => t.find? (tpKeyMatch player team season seq)) sf db
  if team_players_check.truthy then
    let u := sql_update
      (fun t => t.map (fun r =>
        if tpKeyMatch player team season seq r then
          (⟨player, team, season, active, seq⟩ : TPRow)
        else r)) wf db
    ⟨u.1, [SqlWrite.update], u.2⟩
  else
    let ins := sql_insert
      (fun t => t ++ [(⟨player, team, season, active, seq⟩ : TPRow)]) wf db
    ⟨ins.1, [SqlWrite.insert], ins.2⟩

/-- Fields read from `year['stat']` by `_skaterStats_yearByYear`.  The
percentage fields are floating-point in the source; they are modelled as
rationals, and no claim depends on their arithmetic. -/
structure SkaterStat where
  timeOnIce : String
  games : Int
  assists : Int
  goals : Int
  pim : Int
  shots : Int
  hits : Int
  powerPlayGoals : Int
  powerPlayPoints : Int
  powerPlayTimeOnIce : String
  evenTimeOnIce : String
  faceOffPct : Rat
  shotPct : Rat
  gameWinningGoals : Int
  overTimeGoals : Int
  shortHandedGoals : Int
  shortHandedPoints : Int
  shortHandedTimeOnIce : String
  blocked : Int
  plusMinus : Int
  points : Int
  shifts : Int
deriving DecidableEq

/-- One element of the year-by-year `splits` list for a skater, as read by
`_skaterStats_yearByYear`.  `payloadActive` models an `active` flag carried
by the source payload: the year-by-year loop never reads it, which is what
claim C5 quantifies over. -/
structure SkaterSplit where
  season : String
  teamId : Int
  sequenceNumber : Int
  leagueName : String
  payloadActive : Bool
  stat : SkaterStat
deriving DecidableEq

/-- Row of the `skater_season_stats` table. -/
structure SkaterRow where
  player_id : Int
  team_id : Int
  season : String
  time_on_ice : String
  games : Int
  assists : Int
  goals : Int
  pim : Int
  shots : Int
  hits : Int
  pp_goals : Int
  pp_points : Int
  pp_toi : String
  even_toi : String
  faceoff_pct : Rat
  shot_pct : Rat
  gw_goals : Int
  ot_goals : Int
  sh_goals : Int
  sh_points : Int
  sh_toi : String
  blocked_shots : Int
  plus_minus : Int
  points : Int
  shifts : Int
  sequence : Int
deriving DecidableEq

/-- Natural-key predicate of `skater_season_stats` lookups. -/
def skaterKeyMatch (player team : Int) (season : String) (seq : Int)
    (r : SkaterRow) : Bool :=
  r.player_id == player && r.team_id == team && r.season == season &&
    r.sequence == seq

/-- Row written by both the INSERT and the UPDATE of
`_skaterStats_yearByYear` (the UPDATE sets every column). -/
def mkSkaterRow (player : Int) (y : SkaterSplit) : SkaterRow :=
  ⟨player, y.teamId, y.season, y.stat.timeOnIce, y.stat.games,
    y.stat.assists, y.stat.goals, y.stat.pim, y.stat.shots, y.stat.hits,
    y.stat.powerPlayGoals, y.stat.powerPlayPoints,
    y.stat.powerPlayTimeOnIce, y.stat.evenTimeOnIce, y.stat.faceOffPct,
    y.stat.shotPct, y.stat.gameWinningGoals, y.stat.overTimeGoals,
    y.stat.shortHandedGoals, y.stat.shortHandedPoints,
    y.stat.shortHandedTimeOnIce, y.stat.blocked, y.stat.plusMinus,
    y.stat.points, y.stat.shifts, y.sequenceNumber⟩

/-- Fields read from `year['stat']` by `_goalieStats_yearByYear`. -/
structure GoalieStat where
  timeOnIce : String
  games : Int
  gamesStarted : Int
  wins : Int
  losses : Int
  shutouts : Int
  saves : Int
  powerPlaySaves : Int
  shortHandedSaves : Int
  evenSaves : Int
  powerPlayShots : Int
  shortHandedShots : Int
  evenShots : Int
  savePercentage : Rat
  goalAgainstAverage : Rat
  shotsAgainst : Int
  goalsAgainst : Int
  ties : Int
  ot : Int
  powerPlaySavePercentage : Rat
  shortHandedSavePercentage : Rat
  evenStrengthSavePercentage : Rat
deriving DecidableEq

/-- One element of the year-by-year `splits` list for a goalie. -/
structure GoalieSplit where
  season : String
  teamId : Int
  sequenceNumber : Int
  leagueName : String
  payloadActive : Bool
  stat : GoalieStat
deriving DecidableEq

/-- Row of the `goalie_season_stats` table; `ties`/`ot_wins` are `none`
when the source wrote the literal `NULL`. -/
structure GoalieRow where
  player_id : Int
  team_id : Int
  season : String
  time_on_ice : String
  games : Int
  starts : Int
  wins : Int
  losses : Int
  ties : Option Int
  ot_wins : Option Int
  shutouts : Int
  saves : Int
  pp_saves : Int
  sh_saves : Int
  even_saves : Int
  pp_shots : Int
  sh_shots : Int
  even_shots : Int
  save_pct : Rat
  gaa : Rat
  shots_against : Int
  goals_against : Int
  pp_save_pct : Rat
  sh_save_pct : Rat
  even_save_pct : Rat
  sequence : Int
deriving DecidableEq

/-- Natural-key predicate of `goalie_season_stats` lookups. -/
def goalieKeyMatch (player team : Int) (season : String) (seq : Int)
    (r : GoalieRow) : Bool :=
  r.player_id == player && r.team_id == team && r.season == season &&
    r.sequence == seq

/-- Row written by `_goalieStats_yearByYear`, with the pre-2005-2006
`ties`/`ot_wins` split and the save-percentage guards against a shot count
of zero, both as in the source. -/
def mkGoalieRow (player : Int) (y : GoalieSplit) : GoalieRow :=
  let ties : Option Int :=
    if y.season < "20052006" then some y.stat.ties else none
  let ot_wins : Option Int :=
    if y.season < "20052006" then none else some y.stat.ot
  let pp_save_pct : Rat :=
    if y.stat.powerPlayShots ≠ 0 then y.stat.powerPlaySavePercentage else 0
  let sh_save_pct : Rat :=
    if y.stat.shortHandedShots ≠ 0 then y.stat.shortHandedSavePercentage
    else 0
  let even_save_pct : Rat :=
    if y.stat.evenShots ≠ 0 then y.stat.evenStrengthSavePercentage else 0
  ⟨player, y.teamId, y.season, y.stat.timeOnIce, y.stat.games,
    y.stat.gamesStarted, y.stat.wins, y.stat.losses, ties, ot_wins,
    y.stat.shutouts, y.stat.saves, y.stat.powerPlaySaves,
    y.stat.shortHandedSaves, y.stat.evenSaves, y.stat.powerPlayShots,
    y.stat.shortHandedShots, y.stat.evenShots, y.stat.savePercentage,
    y.stat.goalAgainstAverage, y.stat.shotsAgainst, y.stat.goalsAgainst,
    pp_save_pct, sh_save_pct, even_save_pct, y.sequenceNumber⟩

/-- State touched by the year-by-year stats loops. -/
structure StatsDB where
  team_players : List TPRow
  skater_season_stats : List SkaterRow
  goalie_season_stats : List GoalieRow
deriving DecidableEq

/-- The `SELECT EXISTS(SELECT 1 FROM team_players WHERE ...)` query of
`_team_players_check`. -/
def tpExists (t : List TPRow) (player team : Int) (season : String)
    (seq : Int) : Bool :=
  t.any (tpKeyMatch player team season seq)

/-- `_team_players_check` (success path of its SELECT/INSERT): if no
`team_players` row matches `(player, team, season, seq)`, insert one built
from the given data and return `0`; otherwise leave the table alone and
return `1`. -/
def team_players_check (db : StatsDB) (player team : Int) (season : String)
    (active : Bool) (seq : Int) : StatsDB × Nat :=
  let check := tpExists db.team_players player team season seq
  if !check then
    ({ db with team_players :=
        db.team_players ++ [(⟨player, team, season, active, seq⟩ : TPRow)] },
      0)
  else
    (db, 1)

/-- The `SELECT ... fetchone` / `if found: UPDATE else INSERT` pattern of
the year-by-year stats loops, on the affected table: when a row matching
the natural-key predicate `p` exists, every matched row is rewritten to the
freshly built row (the UPDATE sets every column); otherwise the fresh row
is appended. -/
def upsertByKey {α : Type} (p : α → Bool) (fresh : α) (l : List α) :
    List α :=
  if (l.find? p).isSome then l.map (fun r => if p r then fresh else r)
  else l ++ [fresh]

/-- Body of the per-year loop of `_skaterStats_yearByYear` (success path of
its SQL statements) for the `i`-th of `n` NHL seasons of `player`:
derive `active`, ensure the `team_players` row, then upsert
`skater_season_stats` by the natural key. -/
def skaterYearStep (current : String) (player : Int) (n i : Nat)
    (y : SkaterSplit) (db : StatsDB) : StatsDB :=
  let active : Bool :=
    if i < n - 1 then false
    else if y.season == current then true else false
  let db1 :=
    (team_players_check db player y.teamId y.season active
      y.sequenceNumber).1
  { db1 with skater_season_stats :=
      (upsertByKey (skaterKeyMatch player y.teamId y.season y.sequenceNumber)
        (mkSkaterRow player y) db1.skater_season_stats) }

/-- Body of the per-year loop of `_goalieStats_yearByYear` (success path),
mirroring `skaterYearStep` on `goalie_season_stats`. -/
def goalieYearStep (current : String) (player : Int) (n i : Nat)
    (y : GoalieSplit) (db : StatsDB) : StatsDB :=
  let active : Bool :=
    if i < n - 1 then false
    else if y.season == current then true else false
  let db1 :=
    (team_players_check db player y.teamId y.season active
      y.sequenceNumber).1
  { db1 with goalie_season_stats :=
      (upsertByKey (goalieKeyMatch player y.teamId y.season y.sequenceNumber)
        (mkGoalieRow player y) db1.goalie_season_stats) }

end NHL

namespace Juniors

/-- One iteration of the `for i in range(3)` loop of
`juniors_data_pull.request_data`.  A non-200 response returns the bad
payload when `i == 2` (the last attempt) and otherwise falls through; the
timeout handler references the undefined name `_` in its log call, so the
first timeout raises `NameError` and crashes the interpreter. -/
def requestTry (i : Nat) (a : Attempt) : Option ReqOutcome :=
  match a with
  | .response s p =>
    if s == 200 then some (.returned (some p))
    else if i == 2 then some (.returned (some p))
    else none
  | .timeout => some .crashed
  | .reqError => some (.exited 1)

/-- `juniors_data_pull.request_data`, the three-iteration loop unrolled. -/
def request_data (attempts : Nat → Attempt) : ReqOutcome :=
  match requestTry 0 (attempts 0) with
  | some r => r
  | none =>
    match requestTry 1 (attempts 1) with
    | some r => r
    | none =>
      match requestTry 2 (attempts 2) with
      | some r => r
      | none => ReqOutcome.returned none

/-- Row of the `junior_skater_stats` table. -/
structure JuniorSkaterRow where
  player_id : Int
  season : String
  league : String
  games : Int
  goals : Int
  assists : Int
  points : Int
  pp_goals : Int
  gw_goals : Int
  sh_goals : Int
  faceoff_pct : Rat
  time_on_ice : String
  pp_toi : String
  sh_toi : String
  even_toi : String
  plus_minus : Int
  pim : Int
  sequence : Int
deriving DecidableEq

/-- Row of the `junior_goalie_stats` table. -/
structure JuniorGoalieRow where
  player_id : Int
  season : String
  league : String
  games : Int
  wins : Int
  losses : Int
  ties : Int
  ot_wins : Int
  shutouts : Int
  goals_against : Int
  gaa : Rat
  shots_against : Int
  saves : Int
  save_pct : Rat
  sequence : Int
deriving DecidableEq

/-- The two junior stats tables `_sequence_check` queries. -/
structure JuniorsDB where
  junior_skater_stats : List JuniorSkaterRow
  junior_goalie_stats : List JuniorGoalieRow
deriving DecidableEq

/-- The `SELECT EXISTS(... FROM junior_skater_stats WHERE player_id = ..
AND season = .. AND sequence = ..)` query of `_sequence_check`. -/
def skaterSeqTaken (db : JuniorsDB) (id : Int) (season : String)
    (seq : Int) : Bool :=
  db.junior_skater_stats.any (fun r =>
    r.player_id == id && r.season == season && r.sequence == seq)

/-- The matching EXISTS query on `junior_goalie_stats`. -/
def goalieSeqTaken (db : JuniorsDB) (id : Int) (season : String)
    (seq : Int) : Bool :=
  db.junior_goalie_stats.any (fun r =>
    r.player_id == id && r.season == season && r.sequence == seq)

/-- True when either junior stats table already holds a row for
`(id, season, seq)`. -/
def seqTaken (db : JuniorsDB) (id : Int) (season : String) (seq : Int) :
    Bool :=
  skaterSeqTaken db id season seq || goalieSeqTaken db id season seq

/-- `juniors_data_pull._sequence_check` (success path of its two SELECTs):
one existence check against each junior stats table; if either hits,
return `seq + 1`, else return `seq` unchanged.  The function performs a
single increment and never re-checks the incremented value. -/
def sequence_check (db : JuniorsDB) (id : Int) (season : String)
    (seq : Int) : Int :=
  let skater_check := skaterSeqTaken db id season seq
  let goalie_check := goalieSeqTaken db id season seq
  if skater_check || goalie_check then seq + 1 else seq

end Juniors

/-! Concrete data used by the counterexamples and witnesses. -/

/-- Junior skater row with the given sequence number, for the sequence
disambiguator examples (the docstring of `_sequence_check` uses Matt
Auffrey's 2003-2004 junior season). -/
def c1SkaterRow (seq : Int) : Juniors.JuniorSkaterRow :=
  ⟨8471234, "20032004", "U-18", 10, 2, 3, 5, 0, 0, 0, 0, "100:00", "5:00",
    "5:00", "90:00", 1, 4, seq⟩

/-- Database holding junior skater rows at sequences 1 and 2 for the same
(player, season). -/
def c1DbBoth : Juniors.JuniorsDB := ⟨[c1SkaterRow 1, c1SkaterRow 2], []⟩

/-- Database holding a junior skater row at sequence 1 only. -/
def c1DbOne : Juniors.JuniorsDB := ⟨[c1SkaterRow 1], []⟩

/-- Attempt schedule that times out twice and succeeds on the third try. -/
def c7Attempts : Nat → Attempt :=
  fun n => if n == 2 then Attempt.response 200 "teams" else Attempt.timeout

/-- Existing teams row for team id 1, with franchise and active data that an
update must not touch. -/
def c3Row : NHL.TeamRow := ⟨1, "Old Name", "OLD", 5, 17, 99, false⟩

/-- Extracted team record for team id 1. -/
def c3Data : NHL.TeamData := ⟨1, "New Jersey Devils", "NJD", 6, 18, 23, true⟩

/-- Existing teams row used by the frame-effect witness. -/
def c9Row : NHL.TeamRow := ⟨1, "Old Name", "OLD", 5, 17, 99, false⟩

/-- Extracted record used by the frame-effect witness. -/
def c9Data : NHL.TeamData := ⟨1, "New Jersey Devils", "NJD", 6, 18, 23, true⟩

/-- Batch of three extracted team records; the middle one's write fails. -/
def c6d1 : NHL.TeamData := ⟨1, "New Jersey Devils", "NJD", 6, 18, 23, true⟩

/-- Second record of the failing batch (its write fails). -/
def c6d2 : NHL.TeamData := ⟨2, "New York Islanders", "NYI", 6, 18, 22, true⟩

/-- Third record of the failing batch, processed after the failure. -/
def c6d3 : NHL.TeamData := ⟨3, "New York Rangers", "NYR", 6, 18, 10, true⟩

/-- The batch with its per-record write-failure flags. -/
def c6recs : List (NHL.TeamData × Bool) :=
  [(c6d1, false), (c6d2, true), (c6d3, false)]

/-- Year-by-year split used by the active-flag witness. -/
def c5Split : NHL.SkaterSplit :=
  ⟨"20192020", 1, 1, "National Hockey League", false,
    ⟨"1200:00", 60, 20, 10, 12, 100, 50, 3, 8, "120:00", "1000:00", 45, 9,
      2, 1, 0, 1, "80:00", 30, 5, 30, 1300⟩⟩

/-- Empty stats-side database state. -/
def emptyStatsDB : NHL.StatsDB := ⟨[], [], []⟩

/-! Helper lemmas about the embedded operations. -/

section Lemmas

open NHL

theorem find?_isSome_eq_any {α : Type} (p : α → Bool) :
    ∀ l : List α, (l.find? p).isSome = l.any p := by
  intro l
  induction l with
  | nil => rfl
  | cons a t ih => cases hp : p a <;> simp [List.find?_cons, hp, ih]

theorem length_filter_map_inv {α : Type} (f : α → α) (p : α → Bool)
    (h : ∀ a, p (f a) = p a) :
    ∀ l : List α, ((l.map f).filter p).length = (l.filter p).length := by
  intro l
  induction l with
  | nil => rfl
  | cons a t ih =>
    cases hp : p a <;> simp [List.filter_cons, hp, h a, ih]

theorem any_map_inv {α : Type} (f : α → α) (p : α → Bool)
    (h : ∀ a, p (f a) = p a) :
    ∀ l : List α, (l.map f).any p = l.any p := by
  intro l
  induction l with
  | nil => rfl
  | cons a t ih => simp [List.any_cons, h a, ih]

theorem teamsStep_truthy (sf wf : Bool) (db : List TeamRow) (d : TeamData) :
    (teamsStep sf wf db d).writes =
      if (sql_select (fun t => t.find? (fun r => r.id == d.team_id)) sf
          db).truthy
      then [SqlWrite.update] else [SqlWrite.insert] := by
  by_cases h :
      (sql_select (fun t => t.find? (fun r => r.id == d.team_id)) sf
        db).truthy <;>
    simp [teamsStep, h]

theorem sql_select_false_truthy {ρ α : Type} (q : ρ → Option α) (db : ρ) :
    (sql_select q false db).truthy = (q db).isSome := by
  cases h : q db <;> simp [sql_select, h, SelectRes.truthy]

theorem teamsStep_false_db (wf : Bool) (db : List TeamRow) (d : TeamData) :
    (teamsStep false wf db d).db =
      if wf then db
      else if db.any (fun r => r.id == d.team_id) then
        db.map (fun r => if r.id == d.team_id then updateTeamRow d r else r)
      else db ++ [mkTeamRow d] := by
  have ht := sql_select_false_truthy
    (fun t : List TeamRow => t.find? (fun r => r.id == d.team_id)) db
  rw [find?_isSome_eq_any] at ht
  by_cases h : db.any (fun r => r.id == d.team_id) <;>
    cases wf <;>
      simp [teamsStep, ht, h, sql_update, sql_insert]

theorem ptpStep_truthy (sf wf : Bool) (db : List TPRow) (player team : Int)
    (season : String) (act : Bool) (seq : Int) :
    (playersTeamPlayersStep sf wf db player team season act seq).writes =
      if (sql_select (fun t => t.find? (tpKeyMatch player team season seq))
          sf db).truthy
      then [SqlWrite.update] else [SqlWrite.insert] := by
  by_cases h :
      (sql_select (fun t => t.find? (tpKeyMatch player team season seq)) sf
        db).truthy <;>
    simp [playersTeamPlayersStep, h]

theorem updRow_pred (d : TeamData) (a : TeamRow) :
    ((if a.id == d.team_id then updateTeamRow d a else a).id == d.team_id)
      = (a.id == d.team_id) := by
  cases ha : (a.id == d.team_id) <;> simp [ha, updateTeamRow]

theorem countKey_map_upd (db : List TeamRow) (d : TeamData) :
    countKey
      (db.map (fun r => if r.id == d.team_id then updateTeamRow d r else r))
      d.team_id = countKey db d.team_id := by
  unfold countKey
  exact length_filter_map_inv _ _ (updRow_pred d) db

theorem any_map_upd (db : List TeamRow) (d : TeamData) :
    (db.map (fun r =>
      if r.id == d.team_id then updateTeamRow d r else r)).any
        (fun r => r.id == d.team_id) =
      db.any (fun r => r.id == d.team_id) :=
  any_map_inv _ _ (updRow_pred d) db

theorem countKey_eq_zero_iff (db : List TeamRow) (i : Int) :
    countKey db i = 0 ↔ db.any (fun r => r.id == i) = false := by
  unfold countKey
  induction db with
  | nil => simp
  | cons a t ih => cases hp : (a.id == i) <;> simp [List.filter_cons, hp, ih]

end Lemmas

/-! Claim C1: the sequence disambiguator. -/

/-- C1 (counterexample): with `junior_skater_stats` rows already present at
sequences 1 and 2 for player 8471234's 20032004 season, `_sequence_check`
called with candidate 1 returns 2, a sequence number that is still taken —
it increments once and never retries the existence check. -/
theorem c1_counterexample :
    Juniors.sequence_check c1DbBoth 8471234 "20032004" 1 = 2 ∧
    Juniors.seqTaken c1DbBoth 8471234 "20032004" 2 = true := by
  exact ⟨by decide, by decide⟩

/-- C1 (amended): `_sequence_check` performs a single existence check and a
single increment: it returns the candidate when no stats row holds
(player, season, candidate), and `candidate + 1` when one does; the returned
value is guaranteed unused only under the extra assumption that
`candidate + 1` is not itself taken. -/
theorem c1_single_increment (db : Juniors.JuniorsDB) (id : Int)
    (season : String) (seq : Int) :
    (Juniors.seqTaken db id season seq = false →
      Juniors.sequence_check db id season seq = seq) ∧
    (Juniors.seqTaken db id season seq = true →
      Juniors.sequence_check db id season seq = seq + 1) ∧
    (Juniors.seqTaken db id season seq = true →
      Juniors.seqTaken db id season (seq + 1) = false →
      Juniors.seqTaken db id season
        (Juniors.sequence_check db id season seq) = false) := by
  have hdef : Juniors.sequence_check db id season seq =
      if Juniors.seqTaken db id season seq = true then seq + 1 else seq :=
    rfl
  cases h : Juniors.seqTaken db id season seq <;>
    simp [hdef, h]

/-- C1 (witness): with only sequence 1 taken, the disambiguator's result
for candidate 1 is an unused sequence number. -/
theorem c1_single_increment_witness :
    Juniors.seqTaken c1DbOne 8471234 "20032004"
      (Juniors.sequence_check c1DbOne 8471234 "20032004" 1) = false :=
  (c1_single_increment c1DbOne 8471234 "20032004" 1).2.2 (by decide)
    (by decide)

/-! Claim C7: retry/terminate behaviour of `request_data` on timeouts. -/

/-- C7 (counterexample): when all three attempts time out,
`nhl_data_pull.request_data` does not terminate the run — it falls off the
retry loop and returns Python's `None` to its caller. -/
theorem c7_counterexample :
    NHL.request_data (fun _ => Attempt.timeout) = ReqOutcome.returned none ∧
    (NHL.request_data (fun _ => Attempt.timeout)).isExit = false := by
  exact ⟨rfl, rfl⟩

/-- C7 (amended): in `nhl_data_pull`, a timed-out request is retried up to
three attempts total and a request that times out twice then succeeds
returns the payload, but exhausting all three timeouts returns `None` to
the caller instead of aborting the run; in `juniors_data_pull`, the first
timeout crashes the run (its handler logs with the undefined name `_`,
raising `NameError`) instead of retrying. -/
theorem c7_retry_behavior (attempts : Nat → Attempt) (p : String) :
    (attempts 0 = Attempt.timeout → attempts 1 = Attempt.timeout →
      attempts 2 = Attempt.timeout →
      NHL.request_data attempts = ReqOutcome.returned none) ∧
    (attempts 0 = Attempt.timeout → attempts 1 = Attempt.timeout →
      attempts 2 = Attempt.response 200 p →
      NHL.request_data attempts = ReqOutcome.returned (some p)) ∧
    (attempts 0 = Attempt.timeout →
      Juniors.request_data attempts = ReqOutcome.crashed) := by
  refine ⟨fun h0 h1 h2 => ?_, fun h0 h1 h2 => ?_, fun h0 => ?_⟩
  · simp [NHL.request_data, NHL.requestTry, h0, h1, h2]
  · simp [NHL.request_data, NHL.requestTry, h0, h1, h2]
  · simp [Juniors.request_data, Juniors.requestTry, h0]

/-- C7 (witness): two timeouts followed by a 200 response yield the parsed
payload. -/
theorem c7_retry_behavior_witness :
    NHL.request_data c7Attempts = ReqOutcome.returned (some "teams") :=
  (c7_retry_behavior c7Attempts "teams").2.1 rfl rfl rfl

/-! Claim C8: non-2xx responses. -/

/-- C8 (counterexample): a request answered 404 on every attempt is not
fatal: `nhl_data_pull.request_data` silently returns `None` (no `sys.exit`
happens), and `juniors_data_pull.request_data` returns the bad payload on
its final attempt. -/
theorem c8_counterexample :
    NHL.request_data (fun _ => Attempt.response 404 "Not Found") =
      ReqOutcome.returned none ∧
    (NHL.request_data (fun _ => Attempt.response 404 "Not Found")).isExit =
      false ∧
    Juniors.request_data (fun _ => Attempt.response 404 "Not Found") =
      ReqOutcome.returned (some "Not Found") := by
  exact ⟨rfl, rfl, rfl⟩

/-- C8 (amended): only a non-timeout `RequestException` is fatal — both
scripts then exit with status 1.  A non-2xx HTTP response raises no
exception: `nhl_data_pull` keeps retrying and returns `None` after three
attempts, while `juniors_data_pull` returns the bad payload on the third
attempt. -/
theorem c8_non2xx_not_fatal (attempts : Nat → Attempt) (s : Nat)
    (p : String) :
    (attempts 0 = Attempt.reqError →
      NHL.request_data attempts = ReqOutcome.exited 1 ∧
      Juniors.request_data attempts = ReqOutcome.exited 1) ∧
    (s ≠ 200 →
      NHL.request_data (fun _ => Attempt.response s p) =
        ReqOutcome.returned none ∧
      Juniors.request_data (fun _ => Attempt.response s p) =
        ReqOutcome.returned (some p)) := by
  constructor
  · intro h0
    constructor <;>
      simp [NHL.request_data, Juniors.request_data, NHL.requestTry,
        Juniors.requestTry, h0]
  · intro hs
    have hb : (s == 200) = false := by
      simp [hs]
    constructor <;>
      simp [NHL.request_data, Juniors.request_data, NHL.requestTry,
        Juniors.requestTry, hb]

/-- C8 (witness): a 500 response on every attempt yields `None` from the
NHL script and the bad payload from the juniors script. -/
theorem c8_non2xx_not_fatal_witness :
    NHL.request_data (fun _ => Attempt.response 500 "oops") =
      ReqOutcome.returned none ∧
    Juniors.request_data (fun _ => Attempt.response 500 "oops") =
      ReqOutcome.returned (some "oops") :=
  (c8_non2xx_not_fatal (fun _ => Attempt.response 500 "oops") 500 "oops").2
    (by decide)

/-! Claim C4: exactly one write statement per upsert call. -/

/-- C4: every call of the `_teams` upsert body and of the `team_players`
reconciliation inside `_players` executes exactly one write statement —
never zero, never both — and, when the SELECT itself succeeds, that
statement is an UPDATE exactly when a row matching the natural key exists
and an INSERT otherwise. -/
theorem c4_exactly_one_write :
    (∀ (sf wf : Bool) (db : List NHL.TeamRow) (d : NHL.TeamData),
      (NHL.teamsStep sf wf db d).writes.length = 1) ∧
    (∀ (wf : Bool) (db : List NHL.TeamRow) (d : NHL.TeamData),
      (NHL.teamsStep false wf db d).writes =
        if db.any (fun r => r.id == d.team_id) then [NHL.SqlWrite.update]
        else [NHL.SqlWrite.insert]) ∧
    (∀ (sf wf : Bool) (db : List NHL.TPRow) (player team : Int)
        (season : String) (act : Bool) (seq : Int),
      (NHL.playersTeamPlayersStep sf wf db player team season act
        seq).writes.length = 1) ∧
    (∀ (wf : Bool) (db : List NHL.TPRow) (player team : Int)
        (season : String) (act : Bool) (seq : Int),
      (NHL.playersTeamPlayersStep false wf db player team season act
        seq).writes =
        if db.any (NHL.tpKeyMatch player team season seq) then
          [NHL.SqlWrite.update]
        else [NHL.SqlWrite.insert]) := by
  refine ⟨?_, ?_, ?_, ?_⟩
  · intro sf wf db d
    rw [teamsStep_truthy]
    split <;> rfl
  · intro wf db d
    rw [teamsStep_truthy, sql_select_false_truthy, find?_isSome_eq_any]
  · intro sf wf db player team season act seq
    rw [ptpStep_truthy]
    split <;> rfl
  · intro wf db player team season act seq
    rw [ptpStep_truthy, sql_select_false_truthy, find?_isSome_eq_any]

/-! Claim C9: the teams UPDATE leaves `franchise_id` and `active` alone. -/

/-- C9: when a `teams` row already exists for the record's id, the step
takes the UPDATE branch, which rewrites each matched row with
`updateTeamRow`; `updateTeamRow` sets only `id`, `name`, `abbreviation`,
`conf_id` and `division_id` and keeps the row's `franchise_id` and `active`,
whereas a fresh INSERT (`mkTeamRow`) writes both of those fields from the
extracted record. -/
theorem c9_update_frame :
    (∀ (db : List NHL.TeamRow) (d : NHL.TeamData) (r : NHL.TeamRow),
      db.find? (fun x => x.id == d.team_id) = some r →
      (NHL.teamsStep false false db d).writes = [NHL.SqlWrite.update] ∧
      (NHL.teamsStep false false db d).db =
        db.map (fun x =>
          if x.id == d.team_id then NHL.updateTeamRow d x else x)) ∧
    (∀ (d : NHL.TeamData) (x : NHL.TeamRow),
      (NHL.updateTeamRow d x).franchise_id = x.franchise_id ∧
      (NHL.updateTeamRow d x).active = x.active ∧
      (NHL.updateTeamRow d x).id = d.team_id ∧
      (NHL.updateTeamRow d x).name = d.team_name ∧
      (NHL.updateTeamRow d x).abbreviation = d.abbreviation ∧
      (NHL.updateTeamRow d x).conf_id = d.conference_id ∧
      (NHL.updateTeamRow d x).division_id = d.division_id) ∧
    (∀ d : NHL.TeamData,
      (NHL.mkTeamRow d).franchise_id = d.franchise_id ∧
      (NHL.mkTeamRow d).active = d.active) := by
  refine ⟨?_, ?_, ?_⟩
  · intro db d r h
    have hs : (db.find? (fun x => x.id == d.team_id)).isSome = true := by
      rw [h]; rfl
    have hany : db.any (fun x => x.id == d.team_id) = true := by
      rw [← find?_isSome_eq_any, hs]
    constructor
    · rw [teamsStep_truthy, sql_select_false_truthy, hs]
      rfl
    · rw [teamsStep_false_db]
      simp [hany]
  · intro d x
    exact ⟨rfl, rfl, rfl, rfl, rfl, rfl, rfl⟩
  · intro d
    exact ⟨rfl, rfl⟩

/-- C9 (witness): updating team id 1 over an existing row keeps that row's
`franchise_id`/`active` values while rewriting the five updated columns. -/
theorem c9_update_frame_witness :
    (NHL.teamsStep false false [c9Row] c9Data).writes =
      [NHL.SqlWrite.update] ∧
    (NHL.teamsStep false false [c9Row] c9Data).db =
      [c9Row].map (fun x =>
        if x.id == c9Data.team_id then NHL.updateTeamRow c9Data x else x) :=
  c9_update_frame.1 [c9Row] c9Data c9Row (by decide)

/-! Claim C10: failed SELECT is truthy, so the UPDATE branch runs. -/

/-- C10: `sql_select` returns the integer 1 after a database error; that
value is truthy under Python's `if record_check:`, so both the `_teams`
upsert and the `team_players` reconciliation take the UPDATE branch whenever
their SELECT fails — in particular, on an empty table the record is silently
lost (the UPDATE matches no row and nothing is inserted). -/
theorem c10_select_error_truthy :
    (∀ (ρ α : Type) (q : ρ → Option α) (db : ρ),
      NHL.sql_select q true db = NHL.SelectRes.errOne) ∧
    ((NHL.SelectRes.errOne : NHL.SelectRes NHL.TeamRow).truthy = true) ∧
    (∀ (wf : Bool) (db : List NHL.TeamRow) (d : NHL.TeamData),
      (NHL.teamsStep true wf db d).writes = [NHL.SqlWrite.update]) ∧
    (∀ (wf : Bool) (db : List NHL.TPRow) (player team : Int)
        (season : String) (act : Bool) (seq : Int),
      (NHL.playersTeamPlayersStep true wf db player team season act
        seq).writes = [NHL.SqlWrite.update]) ∧
    (∀ d : NHL.TeamData, (NHL.teamsStep true false [] d).db = []) := by
  exact ⟨fun ρ α q db => rfl, rfl, fun wf db d => rfl,
    fun wf db player team season act seq => rfl, fun d => rfl⟩

/-! Claim C3: idempotence of the `_teams` upsert. -/

/-- C3: starting from a table holding at most one row for the record's id
(the primary-key invariant), running the `_teams` upsert body twice with
the same record leaves exactly one row for that id: the first call inserts
or updates, the second finds the row and updates in place. -/
theorem c3_upsert_idempotent (db : List NHL.TeamRow) (d : NHL.TeamData)
    (h : NHL.countKey db d.team_id ≤ 1) :
    NHL.countKey
      (NHL.teamsStep false false (NHL.teamsStep false false db d).db d).db
      d.team_id = 1 := by
  cases hc : db.any (fun r => r.id == d.team_id) with
  | false =>
    have h1 : (NHL.teamsStep false false db d).db =
        db ++ [NHL.mkTeamRow d] := by
      rw [teamsStep_false_db]
      simp [hc]
    have h0 : NHL.countKey db d.team_id = 0 :=
      (countKey_eq_zero_iff db d.team_id).mpr hc
    have hcnt1 : NHL.countKey (db ++ [NHL.mkTeamRow d]) d.team_id = 1 := by
      unfold NHL.countKey at h0 ⊢
      rw [List.filter_append, List.length_append, h0]
      simp [NHL.mkTeamRow]
    have hany1 : (db ++ [NHL.mkTeamRow d]).any
        (fun r => r.id == d.team_id) = true := by
      simp [NHL.mkTeamRow]
    have h2 : (NHL.teamsStep false false (db ++ [NHL.mkTeamRow d]) d).db =
        (db ++ [NHL.mkTeamRow d]).map (fun r =>
          if r.id == d.team_id then NHL.updateTeamRow d r else r) := by
      rw [teamsStep_false_db]
      simp [hany1]
    rw [h1, h2, countKey_map_upd, hcnt1]
  | true =>
    have h1 : NHL.countKey db d.team_id = 1 := by
      rcases Nat.lt_or_ge (NHL.countKey db d.team_id) 1 with hlt | hge
      · exfalso
        have h0 : NHL.countKey db d.team_id = 0 := Nat.lt_one_iff.mp hlt
        rw [countKey_eq_zero_iff] at h0
        rw [hc] at h0
        simp at h0
      · exact Nat.le_antisymm h hge
    have hstep : (NHL.teamsStep false false db d).db =
        db.map (fun r =>
          if r.id == d.team_id then NHL.updateTeamRow d r else r) := by
      rw [teamsStep_false_db]
      simp [hc]
    have hany2 : ((NHL.teamsStep false false db d).db).any
        (fun r => r.id == d.team_id) = true := by
      rw [hstep, any_map_upd, hc]
    have hstep2 :
        (NHL.teamsStep false false (NHL.teamsStep false false db d).db
          d).db =
        ((NHL.teamsStep false false db d).db).map (fun r =>
          if r.id == d.team_id then NHL.updateTeamRow d r else r) := by
      rw [teamsStep_false_db]
      simp [hany2]
    rw [hstep2, countKey_map_upd, hstep, countKey_map_upd, h1]

/-- C3 (witness): upserting the same record twice into an empty table — and
into a table already holding one row for the id — leaves exactly one row. -/
theorem c3_upsert_idempotent_witness :
    NHL.countKey
      (NHL.teamsStep false false
        (NHL.teamsStep false false [] c3Data).db c3Data).db
      c3Data.team_id = 1 ∧
    NHL.countKey
      (NHL.teamsStep false false
        (NHL.teamsStep false false [c3Row] c3Data).db c3Data).db
      c3Data.team_id = 1 :=
  ⟨c3_upsert_idempotent [] c3Data (by decide),
    c3_upsert_idempotent [c3Row] c3Data (by decide)⟩

/-! Claim C2: the team_players bridge row exists after every stats write. -/

theorem tpKeyMatch_self (player team : Int) (season : String) (act : Bool)
    (seq : Int) :
    NHL.tpKeyMatch player team season seq
      ⟨player, team, season, act, seq⟩ = true := by
  simp [NHL.tpKeyMatch]

theorem tpExists_after_check (db : NHL.StatsDB) (player team : Int)
    (season : String) (act : Bool) (seq : Int) :
    NHL.tpExists
      (NHL.team_players_check db player team season act seq).1.team_players
      player team season seq = true := by
  unfold NHL.team_players_check
  cases hc : NHL.tpExists db.team_players player team season seq with
  | true => simp [hc]
  | false => simp [hc, NHL.tpExists, List.any_append, tpKeyMatch_self]

theorem tpc_insert_of_absent (db : NHL.StatsDB) (player team : Int)
    (season : String) (act : Bool) (seq : Int)
    (h : NHL.tpExists db.team_players player team season seq = false) :
    (NHL.team_players_check db player team season act seq).1.team_players =
      db.team_players ++ [⟨player, team, season, act, seq⟩] := by
  unfold NHL.team_players_check
  simp [h]

theorem skaterKeyMatch_mk (player : Int) (y : NHL.SkaterSplit) :
    NHL.skaterKeyMatch player y.teamId y.season y.sequenceNumber
      (NHL.mkSkaterRow player y) = true := by
  simp [NHL.skaterKeyMatch, NHL.mkSkaterRow]

theorem goalieKeyMatch_mk (player : Int) (y : NHL.GoalieSplit) :
    NHL.goalieKeyMatch player y.teamId y.season y.sequenceNumber
      (NHL.mkGoalieRow player y) = true := by
  simp [NHL.goalieKeyMatch, NHL.mkGoalieRow]

theorem any_map_if_mk {α : Type} (p : α → Bool) (fresh : α)
    (hnew : p fresh = true) :
    ∀ l : List α, l.any p = true →
      (l.map (fun r => if p r then fresh else r)).any p = true := by
  intro l
  induction l with
  | nil => simp
  | cons a t ih =>
    intro h
    cases hp : p a with
    | true => simp [hp, hnew]
    | false =>
      rw [List.any_cons, hp, Bool.false_or] at h
      simp [hp, ih h]

theorem upsert_list_any {α : Type} (p : α → Bool) (fresh : α)
    (hnew : p fresh = true) (l : List α) :
    (NHL.upsertByKey p fresh l).any p = true := by
  unfold NHL.upsertByKey
  split
  next h =>
    exact any_map_if_mk p fresh hnew l
      (by rw [← find?_isSome_eq_any]; exact h)
  next h =>
    simp [List.any_append, hnew]

theorem skaterYearStep_team_players (current : String) (player : Int)
    (n i : Nat) (y : NHL.SkaterSplit) (db : NHL.StatsDB) :
    (NHL.skaterYearStep current player n i y db).team_players =
      (NHL.team_players_check db player y.teamId y.season
        (if i < n - 1 then false
         else if y.season == current then true else false)
        y.sequenceNumber).1.team_players := rfl

theorem goalieYearStep_team_players (current : String) (player : Int)
    (n i : Nat) (y : NHL.GoalieSplit) (db : NHL.StatsDB) :
    (NHL.goalieYearStep current player n i y db).team_players =
      (NHL.team_players_check db player y.teamId y.season
        (if i < n - 1 then false
         else if y.season == current then true else false)
        y.sequenceNumber).1.team_players := rfl

theorem skaterYearStep_stats_any (current : String) (player : Int)
    (n i : Nat) (y : NHL.SkaterSplit) (db : NHL.StatsDB) :
    (NHL.skaterYearStep current player n i y db).skater_season_stats.any
      (NHL.skaterKeyMatch player y.teamId y.season y.sequenceNumber) =
      true :=
  upsert_list_any
    (NHL.skaterKeyMatch player y.teamId y.season y.sequenceNumber)
    (NHL.mkSkaterRow player y) (skaterKeyMatch_mk player y)
    ((NHL.team_players_check db player y.teamId y.season
      (if i < n - 1 then false
       else if y.season == current then true else false)
      y.sequenceNumber).1.skater_season_stats)

theorem goalieYearStep_stats_any (current : String) (player : Int)
    (n i : Nat) (y : NHL.GoalieSplit) (db : NHL.StatsDB) :
    (NHL.goalieYearStep current player n i y db).goalie_season_stats.any
      (NHL.goalieKeyMatch player y.teamId y.season y.sequenceNumber) =
      true :=
  upsert_list_any
    (NHL.goalieKeyMatch player y.teamId y.season y.sequenceNumber)
    (NHL.mkGoalieRow player y) (goalieKeyMatch_mk player y)
    ((NHL.team_players_check db player y.teamId y.season
      (if i < n - 1 then false
       else if y.season == current then true else false)
      y.sequenceNumber).1.goalie_season_stats)

/-- C2: processing one NHL season of a player — skater or goalie — first
runs `_team_players_check`, which guarantees a `team_players` row matching
`(player, team, season, sequence)`, and then writes the stats row under the
same key; after the step both the bridge row and the stats row exist, so a
season-stats row is never persisted without its bridge row. -/
theorem c2_stats_implies_team_player :
    (∀ (current : String) (player : Int) (n i : Nat) (y : NHL.SkaterSplit)
        (db : NHL.StatsDB),
      NHL.tpExists
        (NHL.skaterYearStep current player n i y db).team_players player
        y.teamId y.season y.sequenceNumber = true ∧
      (NHL.skaterYearStep current player n i y db).skater_season_stats.any
        (NHL.skaterKeyMatch player y.teamId y.season y.sequenceNumber) =
        true) ∧
    (∀ (current : String) (player : Int) (n i : Nat) (y : NHL.GoalieSplit)
        (db : NHL.StatsDB),
      NHL.tpExists
        (NHL.goalieYearStep current player n i y db).team_players player
        y.teamId y.season y.sequenceNumber = true ∧
      (NHL.goalieYearStep current player n i y db).goalie_season_stats.any
        (NHL.goalieKeyMatch player y.teamId y.season y.sequenceNumber) =
        true) := by
  constructor
  · intro current player n i y db
    refine ⟨?_, skaterYearStep_stats_any current player n i y db⟩
    rw [skaterYearStep_team_players]
    exact tpExists_after_check db player y.teamId y.season _ y.sequenceNumber
  · intro current player n i y db
    refine ⟨?_, goalieYearStep_stats_any current player n i y db⟩
    rw [goalieYearStep_team_players]
    exact tpExists_after_check db player y.teamId y.season _ y.sequenceNumber

/-! Claim C5: the derived active flag. -/

theorem active_flag_iff (current : String) (n i : Nat) (season : String)
    (hin : i < n) :
    ((if i < n - 1 then false
      else if season == current then true else false) = true) ↔
      (i = n - 1 ∧ season = current) := by
  by_cases hi : i < n - 1
  · simp [hi]
    intro h1
    exfalso
    omega
  · have hieq : i = n - 1 := by omega
    simp [hi, hieq, beq_iff_eq]

/-- C5: when a stint's `team_players` row is absent and gets written, the
row written for the `i`-th of `n` stints carries `active = true` exactly
when the stint is the chronologically last of the batch (`i = n - 1`) and
its season equals the configured current season; every earlier stint is
written with `active = false`, whatever active flag the source payload
carried (the step never reads `payloadActive`).  This holds for the skater
and the goalie loop alike. -/
theorem c5_active_only_last (current : String) (player : Int) (n i : Nat) :
    (∀ (y : NHL.SkaterSplit) (db : NHL.StatsDB),
      i < n →
      NHL.tpExists db.team_players player y.teamId y.season
        y.sequenceNumber = false →
      ∃ a : Bool,
        (NHL.skaterYearStep current player n i y db).team_players =
          db.team_players ++
            [⟨player, y.teamId, y.season, a, y.sequenceNumber⟩] ∧
        (a = true ↔ (i = n - 1 ∧ y.season = current))) ∧
    (∀ (y : NHL.GoalieSplit) (db : NHL.StatsDB),
      i < n →
      NHL.tpExists db.team_players player y.teamId y.season
        y.sequenceNumber = false →
      ∃ a : Bool,
        (NHL.goalieYearStep current player n i y db).team_players =
          db.team_players ++
            [⟨player, y.teamId, y.season, a, y.sequenceNumber⟩] ∧
        (a = true ↔ (i = n - 1 ∧ y.season = current))) := by
  constructor
  · intro y db hin habs
    refine ⟨if i < n - 1 then false
      else if y.season == current then true else false, ?_, ?_⟩
    · rw [skaterYearStep_team_players,
        tpc_insert_of_absent db player y.teamId y.season _
          y.sequenceNumber habs]
    · exact active_flag_iff current n i y.season hin
  · intro y db hin habs
    refine ⟨if i < n - 1 then false
      else if y.season == current then true else false, ?_, ?_⟩
    · rw [goalieYearStep_team_players,
        tpc_insert_of_absent db player y.teamId y.season _
          y.sequenceNumber habs]
    · exact active_flag_iff current n i y.season hin

/-- C5 (witness): the last of three stints in the current season gets an
active flag satisfying `a = true ↔ (2 = 3 - 1 ∧ current = current)`. -/
theorem c5_active_only_last_witness :
    ∃ a : Bool,
      (NHL.skaterYearStep "20192020" 8470000 3 2 c5Split
        emptyStatsDB).team_players =
        emptyStatsDB.team_players ++
          [⟨8470000, c5Split.teamId, c5Split.season, a,
            c5Split.sequenceNumber⟩] ∧
      (a = true ↔ (2 = 3 - 1 ∧ c5Split.season = "20192020")) :=
  (c5_active_only_last "20192020" 8470000 3 2).1 c5Split emptyStatsDB
    (by decide) (by decide)

/-! Claim C6: failed writes roll back and the batch continues. -/

theorem teamsStep_wtrue_db (sf : Bool) (db : List NHL.TeamRow)
    (d : NHL.TeamData) :
    (NHL.teamsStep sf true db d).db = db ∧
    (NHL.teamsStep sf true db d).status = 1 := by
  by_cases h :
      (NHL.sql_select (fun t => t.find? (fun r => r.id == d.team_id)) sf
        db).truthy <;>
    simp [NHL.teamsStep, h, NHL.sql_update, NHL.sql_insert]

theorem teamsStep_ff_db_insert (db : List NHL.TeamRow) (d : NHL.TeamData)
    (h : db.any (fun r => r.id == d.team_id) = false) :
    (NHL.teamsStep false false db d).db = db ++ [NHL.mkTeamRow d] := by
  rw [teamsStep_false_db]
  simp [h]

theorem teamsStep_ff_db_update (db : List NHL.TeamRow) (d : NHL.TeamData)
    (h : db.any (fun r => r.id == d.team_id) = true) :
    (NHL.teamsStep false false db d).db =
      db.map (fun r =>
        if r.id == d.team_id then NHL.updateTeamRow d r else r) := by
  rw [teamsStep_false_db]
  simp [h]

theorem any_eq_false_of_fresh (db : List NHL.TeamRow) (d : NHL.TeamData)
    (hfresh : ∀ row ∈ db, row.id ≠ d.team_id) :
    db.any (fun r => r.id == d.team_id) = false := by
  rw [List.any_eq_false]
  intro x hx
  simpa using hfresh x hx

theorem teamsStep_mem_id (wfail : Bool) (db : List NHL.TeamRow)
    (d : NHL.TeamData) (x : NHL.TeamRow)
    (hx : x ∈ (NHL.teamsStep false wfail db d).db) :
    (∃ z ∈ db, x.id = z.id) ∨ x.id = d.team_id := by
  cases wfail with
  | true =>
    rw [(teamsStep_wtrue_db false db d).1] at hx
    exact Or.inl ⟨x, hx, rfl⟩
  | false =>
    cases hany : db.any (fun r => r.id == d.team_id) with
    | false =>
      rw [teamsStep_ff_db_insert db d hany] at hx
      rcases List.mem_append.mp hx with hmem | hmem
      · exact Or.inl ⟨x, hmem, rfl⟩
      · right
        rw [List.mem_singleton.mp hmem]
        rfl
    | true =>
      rw [teamsStep_ff_db_update db d hany] at hx
      rcases List.mem_map.mp hx with ⟨z, hz, hzx⟩
      cases hid : (z.id == d.team_id) with
      | true =>
        right
        rw [← hzx]
        simp [hid, NHL.updateTeamRow]
      | false =>
        left
        refine ⟨z, hz, ?_⟩
        rw [← hzx]
        simp [hid]

theorem teamsStep_mem_preserve (wfail : Bool) (db : List NHL.TeamRow)
    (d : NHL.TeamData) (x : NHL.TeamRow) (hx : x ∈ db)
    (hne : x.id ≠ d.team_id) :
    x ∈ (NHL.teamsStep false wfail db d).db := by
  cases wfail with
  | true =>
    rw [(teamsStep_wtrue_db false db d).1]
    exact hx
  | false =>
    cases hany : db.any (fun r => r.id == d.team_id) with
    | false =>
      rw [teamsStep_ff_db_insert db d hany]
      exact List.mem_append_left _ hx
    | true =>
      rw [teamsStep_ff_db_update db d hany]
      refine List.mem_map.mpr ⟨x, hx, ?_⟩
      have hb : (x.id == d.team_id) = false := by simpa using hne
      simp [hb]

theorem teamsBatch_cons (db : List NHL.TeamRow) (d : NHL.TeamData)
    (b : Bool) (rest : List (NHL.TeamData × Bool)) :
    NHL.teamsBatch db ((d, b) :: rest) =
      NHL.teamsBatch (NHL.teamsStep false b db d).db rest := rfl

theorem teamsBatch_mem_id :
    ∀ (recs : List (NHL.TeamData × Bool)) (db : List NHL.TeamRow)
      (x : NHL.TeamRow), x ∈ NHL.teamsBatch db recs →
      (∃ z ∈ db, x.id = z.id) ∨ ∃ p ∈ recs, x.id = p.1.team_id := by
  intro recs
  induction recs with
  | nil =>
    intro db x hx
    exact Or.inl ⟨x, hx, rfl⟩
  | cons hd rest ih =>
    intro db x hx
    obtain ⟨d, b⟩ := hd
    rw [teamsBatch_cons] at hx
    rcases ih _ x hx with hdb1 | hrest
    · rcases hdb1 with ⟨z, hz, hxz⟩
      rcases teamsStep_mem_id b db d z hz with ⟨w, hw, hzw⟩ | hzd
      · exact Or.inl ⟨w, hw, hxz.trans hzw⟩
      · exact Or.inr ⟨(d, b), List.mem_cons_self _ _, hxz.trans hzd⟩
    · rcases hrest with ⟨p, hp, hxp⟩
      exact Or.inr ⟨p, List.mem_cons_of_mem _ hp, hxp⟩

theorem teamsBatch_preserve :
    ∀ (recs : List (NHL.TeamData × Bool)) (db : List NHL.TeamRow)
      (x : NHL.TeamRow), x ∈ db →
      (∀ p ∈ recs, x.id ≠ p.1.team_id) → x ∈ NHL.teamsBatch db recs := by
  intro recs
  induction recs with
  | nil =>
    intro db x hx _
    exact hx
  | cons hd rest ih =>
    intro db x hx hne
    obtain ⟨d, b⟩ := hd
    rw [teamsBatch_cons]
    apply ih
    · exact teamsStep_mem_preserve b db d x hx
        (hne (d, b) (List.mem_cons_self _ _))
    · intro p hp
      exact hne p (List.mem_cons_of_mem _ hp)

theorem teamsBatch_mem_iff :
    ∀ (recs : List (NHL.TeamData × Bool)) (db : List NHL.TeamRow),
      (recs.map (fun p => p.1.team_id)).Nodup →
      (∀ row ∈ db, ∀ p ∈ recs, row.id ≠ p.1.team_id) →
      ∀ p ∈ recs,
        (NHL.mkTeamRow p.1 ∈ NHL.teamsBatch db recs ↔ p.2 = false) := by
  intro recs
  induction recs with
  | nil =>
    intro db _ _ p hp
    cases hp
  | cons hd rest ih =>
    intro db hnd hfresh p hp
    obtain ⟨d, b⟩ := hd
    rw [List.map_cons, List.nodup_cons] at hnd
    have hndrest : (rest.map (fun p => p.1.team_id)).Nodup := hnd.2
    have hdnotin : d.team_id ∉ rest.map (fun p => p.1.team_id) := hnd.1
    have hfr : ∀ row ∈ db, row.id ≠ d.team_id := fun row hr =>
      hfresh row hr (d, b) (List.mem_cons_self _ _)
    have hany : db.any (fun r => r.id == d.team_id) = false :=
      any_eq_false_of_fresh db d hfr
    have hfresh1 : ∀ row ∈ (NHL.teamsStep false b db d).db,
        ∀ q ∈ rest, row.id ≠ q.1.team_id := by
      intro row hrow q hq
      rcases teamsStep_mem_id b db d row hrow with ⟨z, hz, hrz⟩ | hrd
      · rw [hrz]
        exact hfresh z hz q (List.mem_cons_of_mem _ hq)
      · rw [hrd]
        intro heq
        exact hdnotin (List.mem_map.mpr ⟨q, hq, heq.symm⟩)
    rcases List.mem_cons.mp hp with hphead | hptail
    · subst hphead
      rw [teamsBatch_cons]
      cases b with
      | false =>
        constructor
        · intro _
          rfl
        · intro _
          rw [teamsStep_ff_db_insert db d hany]
          apply teamsBatch_preserve
          · exact List.mem_append_right _ (List.mem_singleton.mpr rfl)
          · intro q hq heq
            exact hdnotin (List.mem_map.mpr ⟨q, hq, heq.symm⟩)
      | true =>
        rw [(teamsStep_wtrue_db false db d).1]
        constructor
        · intro hmem
          exfalso
          rcases teamsBatch_mem_id rest db _ hmem with ⟨z, hz, hid⟩ |
            ⟨q, hq, hid⟩
          · exact hfr z hz hid.symm
          · exact hdnotin (List.mem_map.mpr ⟨q, hq, hid.symm⟩)
        · intro h
          simp at h
    · rw [teamsBatch_cons]
      exact ih (NHL.teamsStep false b db d).db hndrest hfresh1 p hptail

/-- C6: a write that fails with a database error is rolled back — the step
returns the table unchanged — and reported through the status value `1`
instead of an exception; and the `_teams` batch keeps processing the
remaining records: over a batch of fresh, distinct records, a record's row
ends up in the table exactly when its own write succeeded, regardless of
the failures of earlier records. -/
theorem c6_rollback_and_continue :
    (∀ (sf : Bool) (db : List NHL.TeamRow) (d : NHL.TeamData),
      (NHL.teamsStep sf true db d).db = db ∧
      (NHL.teamsStep sf true db d).status = 1) ∧
    (∀ (db : List NHL.TeamRow) (recs : List (NHL.TeamData × Bool)),
      (recs.map (fun p => p.1.team_id)).Nodup →
      (∀ row ∈ db, ∀ p ∈ recs, row.id ≠ p.1.team_id) →
      ∀ p ∈ recs,
        (NHL.mkTeamRow p.1 ∈ NHL.teamsBatch db recs ↔ p.2 = false)) :=
  ⟨teamsStep_wtrue_db, fun db recs hnd hf => teamsBatch_mem_iff recs db hnd hf⟩

/-- C6 (witness): in a three-record batch whose middle write fails, the
third record is still persisted and the failed one is not. -/
theorem c6_rollback_and_continue_witness :
    (NHL.mkTeamRow c6d3 ∈ NHL.teamsBatch [] c6recs ↔ (false = false)) ∧
    (NHL.mkTeamRow c6d2 ∈ NHL.teamsBatch [] c6recs ↔ (true = false)) :=
  ⟨c6_rollback_and_continue.2 [] c6recs (by decide) (by decide) (c6d3, false)
      (by decide),
    c6_rollback_and_continue.2 [] c6recs (by decide) (by decide) (c6d2, true)
      (by decide)⟩
